import Mathlib

/-!
Verification of the optimization pipeline of 3D-Optimizer-Next, a shallow
embedding of `src/app/api/optimize-model/route.ts`.  The handler `POST`
orchestrates a fixed pipeline of glTF-Transform passes over a decoded
document — dedup, prune, resample (guarded on animations), per-texture WebP
compression (guarded on textures), weld with a quantization fallback, and
Draco compression with a simpler retry — then encodes the result and builds a
JSON report.  The passes themselves are external library calls; the embedding
abstracts each call by an environment flag telling whether that call returns
normally or throws, and records every call the handler performs as an event
trace.  Sizes are the byte counts measured via `stat`; the JavaScript float
arithmetic of the reported reduction percentage is modelled over ℚ.
Steps the handler performs that cannot throw into the modelled control flow
(console logging, the self-guarded `checkFileSize` helper, uuid and path
construction) are not represented: they have their own catch blocks or no
failure mode and never alter which passes run or which response is produced.
-/

namespace OptimizeModel

/-- Outcome environment for one request: for each external call the handler in
`route.ts` makes (a library pass, a codec read or write), whether that call
returns normally, together with the document counts read at the corresponding
guards and the byte sizes measured via `stat`.  `textureOk i` is the outcome
of `compressTexture` on the i-th texture of `listTextures()` (line 171). -/
structure Env where
  /-- `formData.get("file")` is non-null (line 67). -/
  hasFile : Bool
  /-- `io.read(inputPath)` (line 135) returns a document. -/
  decodeOk : Bool
  /-- `document.getRoot().listAnimations().length` (line 154). -/
  numAnimations : Nat
  /-- `document.getRoot().listTextures().length` (line 166). -/
  numTextures : Nat
  /-- Outcome of `compressTexture` on texture i (lines 171-176). -/
  textureOk : Nat → Bool
  /-- Outcome of `document.transform(dedup())` (line 142). -/
  dedupOk : Bool
  /-- Outcome of `document.transform(prune())` (line 148). -/
  pruneOk : Bool
  /-- Outcome of `document.transform(resample())` (line 156). -/
  resampleOk : Bool
  /-- Outcome of the weld import and `document.transform(weldFn)` (lines 194-200). -/
  weldOk : Bool
  /-- Outcome of the pre-quantization transform (lines 210-216). -/
  quantizeOk : Bool
  /-- Both Draco modules created and registered: `useDraco` (line 115). -/
  dracoAvailable : Bool
  /-- Outcome of `document.transform(draco())` with defaults (line 250). -/
  draco1Ok : Bool
  /-- Outcome of the retry `draco({quantizePosition: 12})` (line 260). -/
  draco2Ok : Bool
  /-- Outcome of `io.read(inputPath)` in the catch block (line 280). -/
  fallbackReadOk : Bool
  /-- Outcome of `document2.transform(dedup(), prune())` (line 281). -/
  fallbackTransformOk : Bool
  /-- Outcome of `io.write(outputPath, document2)` (line 282). -/
  fallbackWriteOk : Bool
  /-- Outcome of the final `io.write(outputPath, document)` (line 298). -/
  finalWriteOk : Bool
  /-- `stat(inputPath).size` (line 86). -/
  originalSize : Nat
  /-- `stat(outputPath).size` (line 302). -/
  finalSize : Nat

/-- Welding tolerance passed to `weld` at line 197: `tolerance: 0.0001`. -/
def weldTolerance : ℚ := 1 / 10000

/-- One observable call the handler performs, in program order. -/
inductive Event where
  /-- `writeFile(inputPath, buffer)` (line 82). -/
  | writeInput
  /-- `io.read(inputPath)` (line 135). -/
  | readInput
  /-- `document.transform(dedup())` (line 142). -/
  | passDedup
  /-- `document.transform(prune())` (line 148). -/
  | passPrune
  /-- `document.transform(resample())` (line 156). -/
  | passResample
  /-- `compressTexture` on texture i (lines 172-176). -/
  | passTexture (i : Nat)
  /-- `document.transform(weld({tolerance}))` (lines 196-200). -/
  | passWeld (tolerance : ℚ)
  /-- The fallback quantization transform (lines 210-216);
  in the source it is a `draco` transform carrying only quantization bits. -/
  | passQuantize (quantizePosition quantizeNormal quantizeTexcoord : Nat)
  /-- First Draco attempt, `draco()` with library defaults (lines 242-250). -/
  | passDracoA1
  /-- Second Draco attempt, `draco({quantizePosition})` (line 260). -/
  | passDracoA2 (quantizePosition : Nat)
  /-- `io.read(inputPath)` in the catch block (line 280). -/
  | fallbackRead
  /-- `document2.transform(dedup(), prune())` (line 281). -/
  | fallbackDedupPrune
  /-- `io.write(outputPath, document2)` (line 282). -/
  | fallbackWrite
  /-- `io.write(outputPath, document)` (line 298). -/
  | finalWrite
deriving DecidableEq, Repr

/-- An event is a pipeline pass acting on a document (as opposed to codec I/O). -/
def Event.isPass : Event → Bool
  | .writeInput => false
  | .readInput => false
  | .fallbackRead => false
  | .fallbackWrite => false
  | .finalWrite => false
  | _ => true

/-- An event is an attempt of the geometry-compression stage (lines 238-272). -/
def Event.isDracoAttempt : Event → Bool
  | .passDracoA1 => true
  | .passDracoA2 _ => true
  | _ => false

/-- The JSON body built at lines 316-350.  Nested JSON objects are flattened:
`fileSize.original` becomes `fileSizeOriginal`, `applied.dedup` becomes
`appliedDedup`, and so on.  `optimizedModelUrl` (a per-request uuid URL) is
not modelled. -/
structure Report where
  message : String
  optimizationLevel : String
  dracoEnabled : Bool
  fileSizeOriginal : Nat
  fileSizeOptimized : Nat
  fileSizeReduction : ℚ
  fileSizeSavedBytes : ℤ
  appliedDedup : Bool
  appliedPrune : Bool
  appliedResample : Bool
  appliedSimplify : Bool
  appliedDraco : Bool
  note : String
deriving DecidableEq, Repr

/-- The possible HTTP responses of the handler. -/
inductive Response where
  /-- `NextResponse.json({error}, {status: 400})` (line 70). -/
  | badRequest (error : String)
  /-- `NextResponse.json({error, details}, {status: 500})` (lines 357-363);
  the message is taken from the thrown error and is not modelled. -/
  | serverError
  /-- The early return of the successful minimal fallback (lines 286-292),
  status 200. -/
  | minimalOk (optimizationLevel : String) (note : String)
  /-- `NextResponse.json({...})` (lines 316-350), status 200. -/
  | ok (body : Report)
deriving DecidableEq, Repr

/-- HTTP status code of a response. -/
def Response.statusCode : Response → Nat
  | .badRequest _ => 400
  | .serverError => 500
  | .minimalOk _ _ => 200
  | .ok _ => 200

/-- The `optimizationLevel` field of a response body (empty on error bodies). -/
def Response.optLevel : Response → String
  | .badRequest _ => ""
  | .serverError => ""
  | .minimalOk lvl _ => lvl
  | .ok b => b.optimizationLevel

/-- The `fileSize.original` field of a success report, 0 otherwise. -/
def Response.fileSizeOriginalD : Response → Nat
  | .ok b => b.fileSizeOriginal
  | _ => 0

/-- The `fileSize.optimized` field of a success report, 0 otherwise. -/
def Response.fileSizeOptimizedD : Response → Nat
  | .ok b => b.fileSizeOptimized
  | _ => 0

/-- The `fileSize.reduction` field of a success report, 0 otherwise. -/
def Response.fileSizeReductionD : Response → ℚ
  | .ok b => b.fileSizeReduction
  | _ => 0

/-- The `applied.dedup` field of a success report, false otherwise. -/
def Response.appliedDedupB : Response → Bool
  | .ok b => b.appliedDedup
  | _ => false

/-- The `applied.prune` field of a success report, false otherwise. -/
def Response.appliedPruneB : Response → Bool
  | .ok b => b.appliedPrune
  | _ => false

/-- The `applied.resample` field of a success report, false otherwise. -/
def Response.appliedResampleB : Response → Bool
  | .ok b => b.appliedResample
  | _ => false

/-- The `applied.draco` field of a success report, false otherwise. -/
def Response.appliedDracoB : Response → Bool
  | .ok b => b.appliedDraco
  | _ => false

/-- Levels for which `dracoEnabled` and `applied.draco` are true (lines 319, 342). -/
def dracoLevels : List String := ["draco", "draco-simple"]

/-- Levels for which `applied.prune` is true (lines 329-337). -/
def pruneLevels : List String :=
  ["intermediate", "advanced", "draco", "draco-simple", "minimal", "welded",
   "pre-quantized"]

/-- Levels for which `applied.resample` is true (line 338). -/
def resampleLevels : List String := ["advanced", "draco", "draco-simple"]

/-- Levels for which `applied.simplify` is true (line 341). -/
def simplifyLevels : List String := ["welded", "pre-quantized"]

/-- The success JSON body of lines 316-350, as a function of the environment
and the final value of `optimizationLevel`. -/
def mkReport (e : Env) (lvl : String) : Report :=
  { message := "최적화 완료 (레벨: " ++ lvl ++ ")"
    optimizationLevel := lvl
    dracoEnabled := dracoLevels.contains lvl
    fileSizeOriginal := e.originalSize
    fileSizeOptimized := e.finalSize
    fileSizeReduction :=
      ((e.originalSize : ℚ) - (e.finalSize : ℚ)) / (e.originalSize : ℚ) * 100
    fileSizeSavedBytes := (e.originalSize : ℤ) - (e.finalSize : ℤ)
    appliedDedup := lvl != "none"
    appliedPrune := pruneLevels.contains lvl
    appliedResample := resampleLevels.contains lvl
    appliedSimplify := simplifyLevels.contains lvl
    appliedDraco := dracoLevels.contains lvl
    note :=
      if lvl == "welded" then
        "Simplify 대신 Weld 기반 메시 최적화가 적용되었습니다."
      else if lvl == "pre-quantized" then
        "Simplify 대신 Pre-quantization 메시 최적화가 적용되었습니다."
      else
        "Simplify는 라이브러리 버전 호환성 문제로 인해 일시적으로 비활성화되었습니다." }

/-- The `for (const texture of textures)` loop of lines 171-177, iterating from
texture `i` with `n` textures remaining.  A throw from `compressTexture` exits
the loop into the catch at line 182, so processing stops at the first failing
texture.  Returns the compression calls made and whether the loop completed. -/
def textureLoop (ok : Nat → Bool) (i : Nat) : Nat → List Event × Bool
  | 0 => ([], true)
  | n + 1 =>
    if ok i then
      let r := textureLoop ok (i + 1) n
      (Event.passTexture i :: r.1, r.2)
    else
      ([Event.passTexture i], false)

/-- Whether the texture guard at line 166 is taken. -/
def texCond (e : Env) : Bool := decide (0 < e.numTextures)

/-- Whether the animation guard at line 154 is taken. -/
def animCond (e : Env) : Bool := decide (0 < e.numAnimations)

/-- Whether the texture loop of lines 171-177 completes without a throw. -/
def allTexOk (e : Env) : Bool := (textureLoop e.textureOk 0 e.numTextures).2

/-- Calls made by the resample stage (lines 153-163): `resample()` is invoked
only when the document has at least one animation; its failure is caught at
line 160 and does not escape. -/
def resampleEvents (e : Env) : List Event :=
  if 0 < e.numAnimations then [Event.passResample] else []

/-- Calls made by the texture stage (lines 165-187): the loop runs only when
the document has at least one texture; a throw is caught at line 182. -/
def textureEvents (e : Env) : List Event :=
  if 0 < e.numTextures then (textureLoop e.textureOk 0 e.numTextures).1 else []

/-- Calls made by the mesh-optimization stage (lines 189-236): `weld` with
tolerance 0.0001 is always attempted; on a throw the quantization fallback
with bits 12/10/10 (lines 210-216) is attempted, its own failure caught at
line 220. -/
def weldEvents (e : Env) : List Event :=
  if e.weldOk then [Event.passWeld weldTolerance]
  else [Event.passWeld weldTolerance, Event.passQuantize 12 10 10]

/-- Quantization-position bits of the Draco retry at line 260. -/
def dracoRetryQuantizePosition : Nat := 12

/-- Modelled from the spec: the default position-quantization bit width the
geometry-compression backend uses when the first attempt passes no options
(line 242); the backend is an external library whose sources are not part of
this repository.  The spec describes the retry as "a reduced parameter set
(e.g., lower quantization precision)"; the library default is 14 bits. -/
def dracoDefaultQuantizePosition : Nat := 14

/-- Calls made by the geometry-compression stage (lines 238-272): guarded on
`useDraco`; a default-options attempt, then on failure exactly one retry with
`quantizePosition: 12`; the retry's failure is caught at line 264. -/
def dracoEvents (e : Env) : List Event :=
  if e.dracoAvailable then
    if e.draco1Ok then [Event.passDracoA1]
    else [Event.passDracoA1, Event.passDracoA2 dracoRetryQuantizePosition]
  else []

/-- All pass calls of the non-aborted transform block (lines 140-272), given
that `dedup` and `prune` returned normally. -/
def pipelineEvents (e : Env) : List Event :=
  [Event.passDedup, Event.passPrune] ++ resampleEvents e ++ textureEvents e
    ++ weldEvents e ++ dracoEvents e

/-- The final value of `optimizationLevel` along the non-aborted transform
block, as a function of the stage outcomes: `a` = resample guard taken and
resample succeeded, `t` = texture guard taken and every texture compressed,
`w`/`q` = weld / fallback-quantization outcome, `dav`/`d1`/`d2` = Draco
availability and the two attempts.  Mirrors the assignments at lines 143,
149, 157, 179, 201, 217, 252 and 261. -/
def codeLevelOf (a t w q dav d1 d2 : Bool) : String :=
  let l3 := if a then "advanced" else "intermediate"
  let l4 := if t then "texture-compressed" else l3
  let l5 := if w then "welded" else if q then "pre-quantized" else l4
  if dav then (if d1 then "draco" else if d2 then "draco-simple" else l5) else l5

/-- The value of `optimizationLevel` reaching line 298 on the non-aborted path. -/
def finalLevel (e : Env) : String :=
  codeLevelOf (animCond e && e.resampleOk) (texCond e && allTexOk e)
    e.weldOk e.quantizeOk e.dracoAvailable e.draco1Ok e.draco2Ok

/-- Lines 298-350: the final `io.write`; if it throws, the outer catch returns
a 500 response, otherwise the success report is returned. -/
def finalize (e : Env) (evs : List Event) (lvl : String) : List Event × Response :=
  (evs ++ [Event.finalWrite],
   if e.finalWriteOk = false then Response.serverError
   else Response.ok (mkReport e lvl))

/-- The catch block of lines 273-296: `optimizationLevel` is set to "error",
then the minimal fallback (re-read, dedup+prune, write) is attempted; if all
three steps return normally the handler returns early with level "minimal"
(lines 286-292), otherwise the fallback error is swallowed (line 293) and
control continues at line 298 with level "error". -/
def catchPath (e : Env) (evs : List Event) : List Event × Response :=
  if e.fallbackReadOk = false then
    finalize e (evs ++ [Event.fallbackRead]) "error"
  else if e.fallbackTransformOk = false then
    finalize e (evs ++ [Event.fallbackRead, Event.fallbackDedupPrune]) "error"
  else if e.fallbackWriteOk = false then
    finalize e
      (evs ++ [Event.fallbackRead, Event.fallbackDedupPrune, Event.fallbackWrite])
      "error"
  else
    (evs ++ [Event.fallbackRead, Event.fallbackDedupPrune, Event.fallbackWrite],
     Response.minimalOk "minimal"
       "일부 최적화 단계에서 에러가 발생하여 최소 최적화만 적용되었습니다.")

/-- Shallow embedding of the handler `POST` (route.ts lines 64-365).  Returns
the trace of calls performed and the HTTP response.  Only `dedup` (line 142)
and `prune` (line 148) can throw into the catch at line 273: every other pass
sits inside its own try/catch.  A decode failure at line 135 propagates to the
outer catch at line 351. -/
def POST (e : Env) : List Event × Response :=
  if e.hasFile = false then
    ([], Response.badRequest "파일이 없습니다.")
  else if e.decodeOk = false then
    ([Event.writeInput, Event.readInput], Response.serverError)
  else if e.dedupOk = false then
    catchPath e [Event.writeInput, Event.readInput, Event.passDedup]
  else if e.pruneOk = false then
    catchPath e [Event.writeInput, Event.readInput, Event.passDedup, Event.passPrune]
  else
    finalize e ([Event.writeInput, Event.readInput] ++ pipelineEvents e) (finalLevel e)

/-- The trace of calls the handler performs on environment `e`. -/
def executed (e : Env) : List Event := (POST e).1

/-- The HTTP response the handler returns on environment `e`. -/
def response (e : Env) : Response := (POST e).2

/-! Spec-side definitions.  These follow the wording of the specification —
"the highest stage successfully reached", "used purely for reporting, not for
control flow" — and are compared against the code-side definitions above. -/

/-- Follows the spec's words: the ordering of the optimization levels by the
pipeline stage they name (weld and its quantization fallback are alternatives
of one stage, as are the two Draco attempts). -/
def stageRank (s : String) : Nat :=
  if s = "basic" then 1
  else if s = "intermediate" then 2
  else if s = "advanced" then 3
  else if s = "texture-compressed" then 4
  else if s = "welded" then 5
  else if s = "pre-quantized" then 5
  else if s = "draco" then 6
  else if s = "draco-simple" then 6
  else 0

/-- The higher-ranked of two optimization levels. -/
def maxByRank (a b : String) : String := if stageRank a < stageRank b then b else a

/-- Follows the spec's words: the levels of the stages that completed
successfully, given the per-stage outcome flags (same reading as in
`codeLevelOf`; the second Draco attempt only happens when the first fails). -/
def specStageList (a t w q dav d1 d2 : Bool) : List String :=
  ["basic"] ++ ["intermediate"]
    ++ (if a then ["advanced"] else [])
    ++ (if t then ["texture-compressed"] else [])
    ++ (if w then ["welded"] else if q then ["pre-quantized"] else [])
    ++ (if dav && d1 then ["draco"]
        else if dav && d2 then ["draco-simple"] else [])

/-- The highest-ranked level among the successful stages. -/
def specLevelOf (a t w q dav d1 d2 : Bool) : String :=
  (specStageList a t w q dav d1 d2).foldl maxByRank "none"

/-- Follows the spec's words: the levels of the stages that completed
successfully in this run.  When `dedup` throws, no stage succeeded; when
`prune` throws, only `dedup` did; otherwise the run reaches every stage, and
the texture stage counts as successful when every texture was recompressed. -/
def successfulStageLevels (e : Env) : List String :=
  if e.dedupOk = false then []
  else if e.pruneOk = false then ["basic"]
  else
    specStageList (animCond e && e.resampleOk)
      (texCond e && (List.range e.numTextures).all e.textureOk)
      e.weldOk e.quantizeOk e.dracoAvailable e.draco1Ok e.draco2Ok

/-- Follows the spec's words: the highest stage successfully reached in this
run (the level "none" when no stage succeeded). -/
def specHighestStageReached (e : Env) : String :=
  (successfulStageLevels e).foldl maxByRank "none"

/-- The trace the handler would perform in the sub-block of lines 273-296,
written without any reference to the optimization-level tag. -/
def catchTrace (e : Env) (evs : List Event) : List Event :=
  if e.fallbackReadOk = false then
    evs ++ [Event.fallbackRead] ++ [Event.finalWrite]
  else if e.fallbackTransformOk = false then
    evs ++ [Event.fallbackRead, Event.fallbackDedupPrune] ++ [Event.finalWrite]
  else if e.fallbackWriteOk = false then
    evs ++ [Event.fallbackRead, Event.fallbackDedupPrune, Event.fallbackWrite]
      ++ [Event.finalWrite]
  else
    evs ++ [Event.fallbackRead, Event.fallbackDedupPrune, Event.fallbackWrite]

/-- Follows the spec's words: the calls the handler performs, written without
any reference to the optimization-level tag — no `String` of level names
occurs in this computation or the trace computations it calls. -/
def levelFreeTrace (e : Env) : List Event :=
  if e.hasFile = false then []
  else if e.decodeOk = false then [Event.writeInput, Event.readInput]
  else if e.dedupOk = false then
    catchTrace e [Event.writeInput, Event.readInput, Event.passDedup]
  else if e.pruneOk = false then
    catchTrace e [Event.writeInput, Event.readInput, Event.passDedup, Event.passPrune]
  else
    ([Event.writeInput, Event.readInput] ++ pipelineEvents e) ++ [Event.finalWrite]

/-- Modelled from the spec: the quantization of one attribute component to
`bits` fixed-point bits, as performed by the quantization fallback transform
of lines 210-216 — the transform's implementation lives in the external
glTF-Transform/Draco libraries, not in this repository, and the spec
describes it as "quantizing position/normal/texcoord components to
reduced-bit-width fixed-point representations without changing vertex
count". -/
def quantizeComponent (bits : Nat) (x : ℚ) : ℚ :=
  (Rat.floor (x * (2 ^ bits : ℚ)) : ℚ) / (2 ^ bits : ℚ)

/-- Quantization of a whole attribute stream: each component is quantized
independently, so the stream keeps its element count. -/
def quantizeAttribute (bits : Nat) (xs : List ℚ) : List ℚ :=
  xs.map (quantizeComponent bits)

/-! Concrete environments used as witnesses and counterexamples. -/

/-- A request on which every external call succeeds; the document has one
animation and one texture. -/
def envAllOk : Env :=
  { hasFile := true
    decodeOk := true
    numAnimations := 1
    numTextures := 1
    textureOk := fun _ => true
    dedupOk := true
    pruneOk := true
    resampleOk := true
    weldOk := true
    quantizeOk := true
    dracoAvailable := true
    draco1Ok := true
    draco2Ok := true
    fallbackReadOk := true
    fallbackTransformOk := true
    fallbackWriteOk := true
    finalWriteOk := true
    originalSize := 1000
    finalSize := 800 }

/-- Same request, but `dedup` throws (everything else would succeed). -/
def envDedupFails : Env := { envAllOk with dedupOk := false }

/-- Same request, but the upload has no "file" field. -/
def envNoFile : Env := { envAllOk with hasFile := false }

/-- Same request, but `io.read` throws on the uploaded bytes. -/
def envDecodeFails : Env := { envAllOk with decodeOk := false }

/-- Same request with two textures, where `compressTexture` throws on the
first texture and would succeed on the second. -/
def envTexFails : Env :=
  { envAllOk with numTextures := 2, textureOk := fun i => i != 0 }

/-- Same request, but the document has no animations. -/
def envNoAnims : Env := { envAllOk with numAnimations := 0 }

/-- Same request, but the first Draco attempt throws. -/
def envDraco1Fails : Env := { envAllOk with draco1Ok := false }

/-- Same request, but the weld transform throws. -/
def envWeldFails : Env := { envAllOk with weldOk := false }

/-- Same request, but `prune` throws and the fallback re-read also throws. -/
def envPruneFailsNoFallback : Env :=
  { envAllOk with pruneOk := false, fallbackReadOk := false }

/-- A request whose document has no animations and no textures, on which weld
and its quantization fallback both throw while the first Draco attempt
succeeds. -/
def envDracoOnly : Env :=
  { envAllOk with
      numAnimations := 0, numTextures := 0, weldOk := false, quantizeOk := false }

/-! Helper lemmas about the texture loop. -/

lemma textureLoop_mem (ok : Nat → Bool) :
    ∀ (n i j : Nat),
      (Event.passTexture j ∈ (textureLoop ok i n).1 ↔
        ∃ d, d < n ∧ j = i + d ∧ ∀ m, m < d → ok (i + m) = true)
  | 0, i, j => by simp [textureLoop]
  | n + 1, i, j => by
    by_cases h : ok i
    · simp only [textureLoop, h, if_pos, List.mem_cons, Event.passTexture.injEq,
        textureLoop_mem ok n (i + 1) j]
      constructor
      · rintro (rfl | ⟨d, hd, rfl, hall⟩)
        · exact ⟨0, Nat.succ_pos n, by omega, fun m hm => absurd hm (by omega)⟩
        · refine ⟨d + 1, by omega, by omega, fun m hm => ?_⟩
          cases m with
          | zero => simpa using h
          | succ m =>
            have hm' : i + (m + 1) = i + 1 + m := by omega
            rw [hm']
            exact hall m (by omega)
      · rintro ⟨d, hd, rfl, hall⟩
        cases d with
        | zero => left; omega
        | succ d =>
          refine Or.inr ⟨d, by omega, by omega, fun m hm => ?_⟩
          have hm' : i + 1 + m = i + (m + 1) := by omega
          rw [hm']
          exact hall (m + 1) (by omega)
    · simp only [textureLoop, h, if_neg, Bool.false_eq_true, not_false_iff,
        List.mem_singleton, Event.passTexture.injEq]
      constructor
      · rintro rfl
        exact ⟨0, Nat.succ_pos n, by omega, fun m hm => absurd hm (by omega)⟩
      · rintro ⟨d, hd, rfl, hall⟩
        cases d with
        | zero => omega
        | succ d =>
          have := hall 0 (Nat.succ_pos d)
          simp at this
          exact absurd this (by simpa using h)

lemma textureLoop_allOk (ok : Nat → Bool) :
    ∀ (n i : Nat),
      (textureLoop ok i n).2 = (List.range n).all fun m => ok (i + m)
  | 0, _ => by simp [textureLoop]
  | n + 1, i => by
    by_cases h : ok i
    · rw [List.range_succ_eq_map]
      simp only [textureLoop, h, if_pos, textureLoop_allOk ok n (i + 1),
        List.all_cons, List.all_map]
      simp only [Nat.add_zero, h, Bool.true_and]
      congr 1
      funext m
      simp only [Function.comp_apply]
      congr 1
      omega
    · rw [List.range_succ_eq_map]
      simp [textureLoop, h]

lemma textureLoop_shape (ok : Nat → Bool) :
    ∀ (n i : Nat) (ev : Event),
      ev ∈ (textureLoop ok i n).1 → ∃ j, ev = Event.passTexture j
  | 0, i, ev => by simp [textureLoop]
  | n + 1, i, ev => by
    by_cases h : ok i
    · simp only [textureLoop, h, if_pos, List.mem_cons]
      rintro (rfl | hmem)
      · exact ⟨i, rfl⟩
      · exact textureLoop_shape ok n (i + 1) ev hmem
    · simp only [textureLoop, h, if_neg, Bool.false_eq_true, not_false_iff,
        List.mem_singleton]
      rintro rfl
      exact ⟨i, rfl⟩

lemma allTexOk_eq (e : Env) :
    allTexOk e = (List.range e.numTextures).all e.textureOk := by
  rw [allTexOk, textureLoop_allOk]
  simp

/-! Helper lemmas relating the code-side level computation to the spec-side
highest-successful-stage computation; both are finite Boolean case splits. -/

lemma codeLevel_eq_specLevel :
    ∀ a t w q dav d1 d2 : Bool,
      codeLevelOf a t w q dav d1 d2 = specLevelOf a t w q dav d1 d2 := by
  decide

lemma codeLevel_ne_none :
    ∀ a t w q dav d1 d2 : Bool,
      (codeLevelOf a t w q dav d1 d2 != "none") = true := by
  decide

lemma codeLevel_dracoContains :
    ∀ a t w q dav d1 d2 : Bool,
      dracoLevels.contains (codeLevelOf a t w q dav d1 d2) = (dav && (d1 || d2)) := by
  decide

lemma catchPath_error (e : Env) (evs : List Event)
    (hfb : e.fallbackReadOk = false ∨ e.fallbackTransformOk = false ∨
      e.fallbackWriteOk = false)
    (hw : e.finalWriteOk = true) :
    (catchPath e evs).2 = Response.ok (mkReport e "error") ∧
      Event.finalWrite ∈ (catchPath e evs).1 := by
  unfold catchPath finalize
  by_cases h1 : e.fallbackReadOk = false <;>
    by_cases h2 : e.fallbackTransformOk = false <;>
      by_cases h3 : e.fallbackWriteOk = false <;>
        simp_all

lemma catchPath_status (e : Env) (evs : List Event) (hw : e.finalWriteOk = true) :
    ((catchPath e evs).2).statusCode = 200 := by
  unfold catchPath finalize
  by_cases h1 : e.fallbackReadOk = false <;>
    by_cases h2 : e.fallbackTransformOk = false <;>
      by_cases h3 : e.fallbackWriteOk = false <;>
        simp_all [Response.statusCode]

lemma executed_happy (e : Env) (hf : e.hasFile = true) (hd : e.decodeOk = true)
    (h1 : e.dedupOk = true) (h2 : e.pruneOk = true) :
    executed e =
      ([Event.writeInput, Event.readInput] ++ pipelineEvents e)
        ++ [Event.finalWrite] := by
  simp [executed, POST, hf, hd, h1, h2, finalize]

lemma response_happy (e : Env) (hf : e.hasFile = true) (hd : e.decodeOk = true)
    (h1 : e.dedupOk = true) (h2 : e.pruneOk = true) (hw : e.finalWriteOk = true) :
    response e = Response.ok (mkReport e (finalLevel e)) := by
  simp [response, POST, hf, hd, h1, h2, finalize, hw]

lemma textureLoop_head (ok : Nat → Bool) (i : Nat) :
    ∀ n, 0 < n → Event.passTexture i ∈ (textureLoop ok i n).1
  | 0, h => absurd h (by omega)
  | n + 1, _ => by by_cases h : ok i <;> simp [textureLoop, h]

lemma textureEvents_shape (e : Env) (ev : Event) (h : ev ∈ textureEvents e) :
    ∃ j, ev = Event.passTexture j := by
  unfold textureEvents at h
  split at h
  · exact textureLoop_shape _ _ _ _ h
  · simp at h

lemma textureLoop_filter_draco (ok : Nat → Bool) :
    ∀ n i, ((textureLoop ok i n).1).filter Event.isDracoAttempt = []
  | 0, i => by simp [textureLoop]
  | n + 1, i => by
    by_cases h : ok i <;>
      simp [textureLoop, h, Event.isDracoAttempt, textureLoop_filter_draco ok n (i + 1)]

lemma textureEvents_filter_draco (e : Env) :
    (textureEvents e).filter Event.isDracoAttempt = [] := by
  unfold textureEvents
  split
  · exact textureLoop_filter_draco _ _ _
  · rfl

lemma resampleEvents_filter_draco (e : Env) :
    (resampleEvents e).filter Event.isDracoAttempt = [] := by
  unfold resampleEvents
  split <;> simp [Event.isDracoAttempt]

lemma weldEvents_filter_draco (e : Env) :
    (weldEvents e).filter Event.isDracoAttempt = [] := by
  unfold weldEvents
  split <;> simp [Event.isDracoAttempt]

lemma executed_filter_draco_eq (e : Env) :
    (executed e).filter Event.isDracoAttempt =
      if e.hasFile = false then []
      else if e.decodeOk = false then []
      else if e.dedupOk = false then []
      else if e.pruneOk = false then []
      else (dracoEvents e).filter Event.isDracoAttempt := by
  unfold executed POST catchPath finalize pipelineEvents
  by_cases hf : e.hasFile = false <;>
    by_cases hd : e.decodeOk = false <;>
      by_cases h1 : e.dedupOk = false <;>
        by_cases h2 : e.pruneOk = false <;>
          by_cases h3 : e.fallbackReadOk = false <;>
            by_cases h4 : e.fallbackTransformOk = false <;>
              by_cases h5 : e.fallbackWriteOk = false <;>
                simp_all [List.filter_append, Event.isDracoAttempt,
                  resampleEvents_filter_draco, textureEvents_filter_draco,
                  weldEvents_filter_draco]

/-! The claims. -/

/-- C9: for a request whose form data contains no "file" field, the handler
returns an HTTP 400 response with an error message, and performs no write, no
decode and no pipeline pass (its call trace is empty). -/
theorem C9_missing_file (e : Env) (h : e.hasFile = false) :
    response e = Response.badRequest "파일이 없습니다." ∧
      (response e).statusCode = 400 ∧ executed e = [] := by
  simp [response, executed, POST, h, Response.statusCode]

theorem C9_missing_file_witness :
    response envNoFile = Response.badRequest "파일이 없습니다." ∧
      (response envNoFile).statusCode = 400 ∧ executed envNoFile = [] :=
  C9_missing_file envNoFile rfl

/-- C3: when the uploaded bytes fail to decode, the request returns an error
response (status 500) and no pipeline pass executes on any document: the
trace holds only the input write and the failed read. -/
theorem C3_decode_failure_fatal (e : Env) (hf : e.hasFile = true)
    (hd : e.decodeOk = false) :
    (response e).statusCode = 500 ∧
      executed e = [Event.writeInput, Event.readInput] ∧
      ∀ ev ∈ executed e, ev.isPass = false := by
  refine ⟨?_, ?_, ?_⟩ <;>
    simp [response, executed, POST, hf, hd, Response.statusCode, Event.isPass]

theorem C3_decode_failure_fatal_witness :
    (response envDecodeFails).statusCode = 500 ∧
      executed envDecodeFails = [Event.writeInput, Event.readInput] ∧
      ∀ ev ∈ executed envDecodeFails, ev.isPass = false :=
  C3_decode_failure_fatal envDecodeFails rfl rfl

/-- C10: when an early pass (dedup or prune) throws and the minimal fallback
re-optimization also fails, the handler still encodes the current document
(the final write happens) and returns an HTTP 200 success response whose
optimizationLevel is the string "error", not an error status. -/
theorem C10_fallback_error_response (e : Env) (hf : e.hasFile = true)
    (hd : e.decodeOk = true)
    (hab : e.dedupOk = false ∨ e.pruneOk = false)
    (hfb : e.fallbackReadOk = false ∨ e.fallbackTransformOk = false ∨
      e.fallbackWriteOk = false)
    (hw : e.finalWriteOk = true) :
    (response e).statusCode = 200 ∧ (response e).optLevel = "error" ∧
      Event.finalWrite ∈ executed e := by
  have hpost :
      POST e = catchPath e [Event.writeInput, Event.readInput, Event.passDedup] ∨
        POST e = catchPath e
          [Event.writeInput, Event.readInput, Event.passDedup, Event.passPrune] := by
    by_cases hdd : e.dedupOk = false
    · left; simp [POST, hf, hd, hdd]
    · right
      rcases hab with hab | hab
      · exact absurd hab hdd
      · simp [POST, hf, hd, hdd, hab]
  rcases hpost with hpost | hpost
  · obtain ⟨h1, h2⟩ :=
      catchPath_error e [Event.writeInput, Event.readInput, Event.passDedup] hfb hw
    refine ⟨?_, ?_, ?_⟩ <;>
      simp [response, executed, hpost, h1, h2, Response.statusCode,
        Response.optLevel, mkReport]
  · obtain ⟨h1, h2⟩ :=
      catchPath_error e
        [Event.writeInput, Event.readInput, Event.passDedup, Event.passPrune] hfb hw
    refine ⟨?_, ?_, ?_⟩ <;>
      simp [response, executed, hpost, h1, h2, Response.statusCode,
        Response.optLevel, mkReport]

theorem C10_fallback_error_response_witness :
    (response envPruneFailsNoFallback).statusCode = 200 ∧
      (response envPruneFailsNoFallback).optLevel = "error" ∧
      Event.finalWrite ∈ executed envPruneFailsNoFallback :=
  C10_fallback_error_response envPruneFailsNoFallback rfl rfl (Or.inr rfl)
    (Or.inl rfl) rfl

/-- C1, counterexample: when the dedup pass throws (with every later pass able
to succeed), the later passes do not run — prune is never invoked — so a
single pass failure does abort the rest of the pipeline, contrary to the
claim. -/
theorem C1_pipeline_abort_counterexample :
    envDedupFails.dedupOk = false ∧ envDedupFails.pruneOk = true ∧
      Event.passDedup ∈ executed envDedupFails ∧
      Event.passPrune ∉ executed envDedupFails ∧
      Event.passWeld weldTolerance ∉ executed envDedupFails := by
  decide

/-- C2, counterexample: with two textures where compression of the first
throws and the second would succeed, the second texture is never processed —
the per-texture loop shares one try/catch, so one failure blocks the rest. -/
theorem C2_texture_loop_counterexample :
    envTexFails.numTextures = 2 ∧ envTexFails.textureOk 0 = false ∧
      envTexFails.textureOk 1 = true ∧
      Event.passTexture 0 ∈ executed envTexFails ∧
      Event.passTexture 1 ∉ executed envTexFails := by
  decide

/-- C4, counterexample: a decoded document with one animation on which dedup
throws — the resample pass does not run even though an animation is present,
so "resample runs if and only if at least one animation exists" fails. -/
theorem C4_resample_counterexample :
    0 < envDedupFails.numAnimations ∧
      Event.passResample ∉ executed envDedupFails := by
  decide

/-- C7, counterexample: when prune throws and the minimal fallback also fails,
the reported optimization-level tag is "error", while the highest stage
successfully reached in that run is dedup (level "basic") — the tag does not
always equal the highest stage successfully reached. -/
theorem C7_level_tag_counterexample :
    (response envPruneFailsNoFallback).optLevel = "error" ∧
      specHighestStageReached envPruneFailsNoFallback = "basic" ∧
      (response envPruneFailsNoFallback).optLevel ≠
        specHighestStageReached envPruneFailsNoFallback := by
  decide

/-- C8, counterexample: for a document with no animations where weld and its
quantization fallback throw but Draco succeeds, the final level is "draco" and
the report says applied.resample = true although the resample pass never ran —
the applied map's booleans are not "true exactly when that stage ran". -/
theorem C8_report_counterexample :
    envDracoOnly.numAnimations = 0 ∧
      Event.passResample ∉ executed envDracoOnly ∧
      (response envDracoOnly).appliedResampleB = true := by
  decide

/-- C1, amended: failure of the guarded passes (resample, texture
compression, weld, its quantization fallback, the Draco attempts) never
prevents a later pass from running and never escalates to request-scoped
failure; when dedup and prune return normally, every later pass guard is
reached regardless of any stage outcome, and if the final encode succeeds the
request always completes with a 200 response — including when dedup or prune
throws, via the minimal fallback. -/
theorem C1_pipeline_continues_amended (e : Env) (hf : e.hasFile = true)
    (hd : e.decodeOk = true) (hw : e.finalWriteOk = true) :
    (response e).statusCode = 200 ∧
      (e.dedupOk = true → e.pruneOk = true →
        Event.passWeld weldTolerance ∈ executed e ∧
          (0 < e.numAnimations → Event.passResample ∈ executed e) ∧
          (0 < e.numTextures → Event.passTexture 0 ∈ executed e) ∧
          (e.dracoAvailable = true → Event.passDracoA1 ∈ executed e) ∧
          Event.finalWrite ∈ executed e) := by
  constructor
  · by_cases h1 : e.dedupOk = false
    · have := catchPath_status e
        [Event.writeInput, Event.readInput, Event.passDedup] hw
      simpa [response, POST, hf, hd, h1] using this
    · by_cases h2 : e.pruneOk = false
      · have := catchPath_status e
          [Event.writeInput, Event.readInput, Event.passDedup, Event.passPrune] hw
        simpa [response, POST, hf, hd, h1, h2] using this
      · simp [response, POST, hf, hd, h1, h2, finalize, hw, Response.statusCode]
  · intro h1 h2
    rw [executed_happy e hf hd h1 h2]
    refine ⟨?_, fun ha => ?_, fun ht => ?_, fun hdav => ?_, ?_⟩
    · by_cases hwd : e.weldOk <;> simp [pipelineEvents, weldEvents, hwd]
    · simp [pipelineEvents, resampleEvents, ha]
    · have := textureLoop_head e.textureOk 0 e.numTextures ht
      simp [pipelineEvents, textureEvents, ht, this]
    · by_cases hd1 : e.draco1Ok <;> simp [pipelineEvents, dracoEvents, hdav, hd1]
    · simp

theorem C1_pipeline_continues_witness :
    (response envAllOk).statusCode = 200 ∧
      (envAllOk.dedupOk = true → envAllOk.pruneOk = true →
        Event.passWeld weldTolerance ∈ executed envAllOk ∧
          (0 < envAllOk.numAnimations → Event.passResample ∈ executed envAllOk) ∧
          (0 < envAllOk.numTextures → Event.passTexture 0 ∈ executed envAllOk) ∧
          (envAllOk.dracoAvailable = true →
            Event.passDracoA1 ∈ executed envAllOk) ∧
          Event.finalWrite ∈ executed envAllOk) :=
  C1_pipeline_continues_amended envAllOk rfl rfl rfl

/-- C2, amended: within the texture stage the per-texture loop shares one
try/catch, so texture j is recompressed exactly when j is in range and every
earlier texture's recompression succeeded — a failure on one texture stops
the remaining textures (they keep their original bytes, as does the failed
one); the failure stays inside the stage and the later passes still run. -/
theorem C2_texture_stage_amended (e : Env) (hf : e.hasFile = true)
    (hd : e.decodeOk = true) (h1 : e.dedupOk = true) (h2 : e.pruneOk = true) :
    (∀ j, Event.passTexture j ∈ executed e ↔
        j < e.numTextures ∧ ∀ i, i < j → e.textureOk i = true) ∧
      Event.passWeld weldTolerance ∈ executed e := by
  have hex := executed_happy e hf hd h1 h2
  constructor
  · intro j
    have hmem : Event.passTexture j ∈ executed e ↔
        Event.passTexture j ∈ textureEvents e := by
      rw [hex]
      by_cases ha : 0 < e.numAnimations <;>
        by_cases hwd : e.weldOk <;>
          by_cases hdav : e.dracoAvailable <;>
            by_cases hd1 : e.draco1Ok <;>
              simp [pipelineEvents, resampleEvents, weldEvents, dracoEvents,
                ha, hwd, hdav, hd1]
    rw [hmem]
    unfold textureEvents
    by_cases ht : 0 < e.numTextures
    · rw [if_pos ht, textureLoop_mem]
      constructor
      · rintro ⟨d, hdn, rfl, hall⟩
        exact ⟨by omega, fun i hi => by simpa using hall i (by omega)⟩
      · rintro ⟨hj, hall⟩
        exact ⟨j, hj, by omega, fun m hm => by simpa using hall m (by omega)⟩
    · have h0 : e.numTextures = 0 := by omega
      simp [ht, h0]
  · rw [hex]
    by_cases hwd : e.weldOk <;> simp [pipelineEvents, weldEvents, hwd]

theorem C2_texture_stage_witness :
    (∀ j, Event.passTexture j ∈ executed envTexFails ↔
        j < envTexFails.numTextures ∧
          ∀ i, i < j → envTexFails.textureOk i = true) ∧
      Event.passWeld weldTolerance ∈ executed envTexFails :=
  C2_texture_stage_amended envTexFails rfl rfl rfl rfl

/-- C4, amended: provided the unguarded early passes dedup and prune return
normally, the resample pass runs if and only if the decoded document has at
least one animation; with no animations the resample stage is skipped — never
invoked, hence never failed — while dedup and prune still run. -/
theorem C4_resample_amended (e : Env) (hf : e.hasFile = true)
    (hd : e.decodeOk = true) (h1 : e.dedupOk = true) (h2 : e.pruneOk = true) :
    (Event.passResample ∈ executed e ↔ 0 < e.numAnimations) ∧
      (e.numAnimations = 0 →
        Event.passResample ∉ executed e ∧
          Event.passDedup ∈ executed e ∧ Event.passPrune ∈ executed e) := by
  have hex := executed_happy e hf hd h1 h2
  have hnt : Event.passResample ∉ textureEvents e := by
    intro h
    obtain ⟨j, hj⟩ := textureEvents_shape e _ h
    exact Event.noConfusion hj
  have hmem : Event.passResample ∈ executed e ↔ 0 < e.numAnimations := by
    rw [hex]
    by_cases ha : 0 < e.numAnimations <;>
      by_cases hwd : e.weldOk <;>
        by_cases hdav : e.dracoAvailable <;>
          by_cases hd1 : e.draco1Ok <;>
            simp [pipelineEvents, resampleEvents, weldEvents, dracoEvents,
              ha, hwd, hdav, hd1, hnt]
  refine ⟨hmem, fun h0 => ⟨?_, ?_, ?_⟩⟩
  · rw [hmem]; omega
  · rw [hex]; simp [pipelineEvents]
  · rw [hex]; simp [pipelineEvents]

theorem C4_resample_witness :
    (Event.passResample ∈ executed envNoAnims ↔ 0 < envNoAnims.numAnimations) ∧
      (envNoAnims.numAnimations = 0 →
        Event.passResample ∉ executed envNoAnims ∧
          Event.passDedup ∈ executed envNoAnims ∧
          Event.passPrune ∈ executed envNoAnims) :=
  C4_resample_amended envNoAnims rfl rfl rfl rfl

/-- C5: the geometry-compression stage is attempted only when both Draco
modules are available, and whenever the stage is reached and the first
default-options attempt fails, the handler retries exactly once, with a
reduced parameter set — quantizePosition 12, below the backend's default of
14 — before leaving the geometry uncompressed. -/
theorem C5_draco_retry (e : Env) :
    ((executed e).filter Event.isDracoAttempt ≠ [] → e.dracoAvailable = true) ∧
      (e.hasFile = true → e.decodeOk = true → e.dedupOk = true →
        e.pruneOk = true → e.dracoAvailable = true → e.draco1Ok = false →
        (executed e).filter Event.isDracoAttempt =
            [Event.passDracoA1, Event.passDracoA2 dracoRetryQuantizePosition] ∧
          dracoRetryQuantizePosition < dracoDefaultQuantizePosition) := by
  constructor
  · intro hne
    by_contra hav
    have hav' : e.dracoAvailable = false := by
      cases hdav : e.dracoAvailable
      · rfl
      · exact absurd hdav hav
    apply hne
    rw [executed_filter_draco_eq]
    split_ifs <;> simp [dracoEvents, hav']
  · intro hf hd h1 h2 hdav hd1
    refine ⟨?_, by decide⟩
    rw [executed_filter_draco_eq]
    simp [hf, hd, h1, h2, dracoEvents, hdav, hd1, Event.isDracoAttempt]

theorem C5_draco_retry_witness :
    (executed envDraco1Fails).filter Event.isDracoAttempt =
        [Event.passDracoA1, Event.passDracoA2 dracoRetryQuantizePosition] ∧
      dracoRetryQuantizePosition < dracoDefaultQuantizePosition :=
  (C5_draco_retry envDraco1Fails).2 rfl rfl rfl rfl rfl rfl

/-- C6: the welding stage always attempts weld with tolerance 1e-4, and when
welding fails (or the weld import is unavailable) it falls back to the
quantization transform with reduced bit widths 12/10/10 for
position/normal/texcoord; quantization maps each component independently, so
it does not change the element count of an attribute stream. -/
theorem C6_weld_fallback (e : Env) (hf : e.hasFile = true)
    (hd : e.decodeOk = true) (h1 : e.dedupOk = true) (h2 : e.pruneOk = true) :
    Event.passWeld (1 / 10000 : ℚ) ∈ executed e ∧
      (e.weldOk = false → Event.passQuantize 12 10 10 ∈ executed e) ∧
      ∀ (bits : Nat) (xs : List ℚ),
        (quantizeAttribute bits xs).length = xs.length := by
  have hex := executed_happy e hf hd h1 h2
  refine ⟨?_, fun hwd => ?_, fun bits xs => ?_⟩
  · rw [hex]
    by_cases hwd : e.weldOk <;>
      simp [pipelineEvents, weldEvents, hwd, weldTolerance]
  · rw [hex]
    simp [pipelineEvents, weldEvents, hwd]
  · simp [quantizeAttribute]

theorem C6_weld_fallback_witness :
    Event.passWeld (1 / 10000 : ℚ) ∈ executed envWeldFails ∧
      Event.passQuantize 12 10 10 ∈ executed envWeldFails :=
  ⟨(C6_weld_fallback envWeldFails rfl rfl rfl rfl).1,
   (C6_weld_fallback envWeldFails rfl rfl rfl rfl).2.1 rfl⟩

/-- C7, amended: the set of calls the handler performs never depends on the
optimization-level tag — the trace equals a computation written with no
reference to any level — and on runs where dedup and prune succeed the
reported tag equals the highest stage successfully reached; when dedup or
prune throws, the tag is instead "minimal" or "error" from the fallback
bookkeeping. -/
theorem C7_level_tag_amended (e : Env) :
    executed e = levelFreeTrace e ∧
      (e.hasFile = true → e.decodeOk = true → e.dedupOk = true →
        e.pruneOk = true → e.finalWriteOk = true →
        (response e).optLevel = specHighestStageReached e) := by
  constructor
  · unfold executed POST catchPath finalize levelFreeTrace catchTrace
    split_ifs <;> rfl
  · intro hf hd h1 h2 hw
    rw [response_happy e hf hd h1 h2 hw]
    show finalLevel e = specHighestStageReached e
    unfold specHighestStageReached successfulStageLevels
    simp only [h1, h2]
    rw [if_neg (by simp), if_neg (by simp)]
    rw [finalLevel, ← allTexOk_eq]
    exact codeLevel_eq_specLevel _ _ _ _ _ _ _

theorem C7_level_tag_witness :
    executed envAllOk = levelFreeTrace envAllOk ∧
      (response envAllOk).optLevel = specHighestStageReached envAllOk :=
  ⟨(C7_level_tag_amended envAllOk).1,
   (C7_level_tag_amended envAllOk).2 rfl rfl rfl rfl rfl⟩

/-- C8, amended: every successful-path response carries a report with an
optimizationLevel, a fileSize structure whose fields are original, optimized,
reduction (the percentage) and savedBytes, and an applied map — but the
applied booleans are functions of the final optimizationLevel alone:
applied.dedup is true on every such report and applied.draco is true exactly
when a Draco attempt succeeded, while applied.prune, applied.resample and
applied.simplify need not equal whether those stages ran. -/
theorem C8_report_amended (e : Env) (hf : e.hasFile = true)
    (hd : e.decodeOk = true) (h1 : e.dedupOk = true) (h2 : e.pruneOk = true)
    (hw : e.finalWriteOk = true) :
    (response e).statusCode = 200 ∧
      (response e).optLevel = finalLevel e ∧
      (response e).fileSizeOriginalD = e.originalSize ∧
      (response e).fileSizeOptimizedD = e.finalSize ∧
      (response e).fileSizeReductionD =
        ((e.originalSize : ℚ) - (e.finalSize : ℚ)) / (e.originalSize : ℚ) * 100 ∧
      (response e).appliedDedupB = true ∧
      (response e).appliedDracoB = (e.dracoAvailable && (e.draco1Ok || e.draco2Ok)) := by
  rw [response_happy e hf hd h1 h2 hw]
  refine ⟨rfl, rfl, rfl, rfl, rfl, ?_, ?_⟩
  · show ((mkReport e (finalLevel e)).appliedDedup) = true
    show (finalLevel e != "none") = true
    rw [finalLevel]
    exact codeLevel_ne_none _ _ _ _ _ _ _
  · show ((mkReport e (finalLevel e)).appliedDraco) = _
    show dracoLevels.contains (finalLevel e) = _
    rw [finalLevel]
    exact codeLevel_dracoContains _ _ _ _ _ _ _

theorem C8_report_witness :
    (response envAllOk).statusCode = 200 ∧
      (response envAllOk).optLevel = finalLevel envAllOk ∧
      (response envAllOk).fileSizeOriginalD = envAllOk.originalSize ∧
      (response envAllOk).fileSizeOptimizedD = envAllOk.finalSize ∧
      (response envAllOk).fileSizeReductionD =
        ((envAllOk.originalSize : ℚ) - (envAllOk.finalSize : ℚ)) /
          (envAllOk.originalSize : ℚ) * 100 ∧
      (response envAllOk).appliedDedupB = true ∧
      (response envAllOk).appliedDracoB =
        (envAllOk.dracoAvailable && (envAllOk.draco1Ok || envAllOk.draco2Ok)) :=
  C8_report_amended envAllOk rfl rfl rfl rfl rfl

end OptimizeModel
